import Mathlib

/-!
Verification development for the Battery Guard multi-device BLE monitor
(src/src/main.cpp, src/include/battery_monitor.h, types.h).

The embedding translates the per-device connection state machine, the
handshake builder, the AES-CBC wrapper and the notification decoder into
Lean. Machine integers are modelled as Nat with explicit mod where
overflow matters; the 32-bit unsigned subtraction used on millis()
timestamps is modelled by usub32. The AES core itself lives in the
external mbedtls library, so the cipher primitive is a parameter
(a function from key and block to block); the repository code adds the
single-block CBC layer with the all-zero IV on top of it, and that layer
is embedded here.
-/

namespace BatteryGuard

/-- States of the per-device state machine (enum DeviceState in main.cpp). -/
inductive DeviceState where
  | DISCONNECTED
  | SCANNING
  | CONNECTING
  | HANDSHAKE
  | MONITORING
  | COOLDOWN
deriving DecidableEq, Repr

/-- Device configuration entry (struct DeviceConfig in types.h, the variant
with an export name and a per-device key pointer). The key is kept as a
byte list. -/
structure DeviceConfig where
  serial : String
  name : String
  mqttName : String
  type : Nat
  enabled : Bool
  key : List Nat
deriving DecidableEq, Repr

/-- One BatteryMonitor instance (class BatteryMonitor in main.cpp). BLE
pointers are modelled by presence flags: hasClient stands for
pClient being non-null, clientConnected for pClient->isConnected(),
hasWriteChar and hasNotifyChar for the two characteristic pointers.
The voltage field of the source is a float computed as a 16-bit value
divided by 100; it is modelled exactly as a rational. -/
structure BatteryMonitor where
  configIndex : Nat
  config : DeviceConfig
  hasClient : Bool
  clientConnected : Bool
  hasWriteChar : Bool
  hasNotifyChar : Bool
  state : DeviceState
  connectRetries : Nat
  lastRetryTime : Nat
  lastNotificationTime : Nat
  stateEnterTime : Nat
  deviceAddress : String
  voltage : ℚ
  soc : Nat
  temperature : Int
  status : Nat
  rapidVoltageRise : Nat
  rapidVoltageDrop : Nat
  lastUpdateTime : Nat
deriving DecidableEq, Repr

/-- 2^32, the modulus of the 32-bit unsigned long arithmetic on the ESP32. -/
def U32 : Nat := 4294967296

/-- Unsigned 32-bit subtraction a - b as the C expression computes it
(wraps modulo 2^32). -/
def usub32 (a b : Nat) : Nat := (a % U32 + (U32 - b % U32)) % U32

/-- A block cipher core: key and 16-byte block to 16-byte block. The AES
core is external (mbedtls), so definitions take it as a parameter. -/
def BlockCipher : Type := List Nat → List Nat → List Nat

/-- The all-zero AES initialization vector (const uint8_t AES_IV[16]). -/
def AES_IV : List Nat := List.replicate 16 0

/-- Pointwise xor of two byte lists, as CBC mode combines a block with the
chaining value. -/
def xorBytes (a b : List Nat) : List Nat := List.zipWith (fun x y => x ^^^ y) a b

/-- aes_encrypt of main.cpp: single-block AES-CBC encryption under the
global key AES_KEY (defined in the untracked config.h, abstract here)
with a fresh all-zero IV each call. CBC on one block encrypts the xor of
the plaintext with the IV. -/
def aes_encrypt (enc : BlockCipher) (AES_KEY : List Nat) (input : List Nat) : List Nat :=
  enc AES_KEY (xorBytes input AES_IV)

/-- aes_decrypt of main.cpp: single-block AES-CBC decryption under the
global key AES_KEY with a fresh all-zero IV each call. CBC on one block
xors the core decryption of the ciphertext with the IV. -/
def aes_decrypt (dec : BlockCipher) (AES_KEY : List Nat) (input : List Nat) : List Nat :=
  xorBytes (dec AES_KEY input) AES_IV

/-- The 6 plaintext handshake frames of sendHandshake, in write order;
frame 2 embeds the configured battery type code at byte 3. -/
def handshakeFrames (type : Nat) : List (List Nat) :=
  [ [0xD1, 0x55, 0x01, 0x00, 0x00, 0x00, 0x00, 0x00, 0x00, 0x00, 0x00, 0x00, 0x00, 0x00, 0x00, 0x00],
    [0xD1, 0x55, 0x08, type, 0x00, 0x00, 0x00, 0x00, 0x00, 0x00, 0x00, 0x00, 0x00, 0x00, 0x00, 0x00],
    [0xD1, 0x55, 0x05, 0x00, 0x00, 0x00, 0x00, 0x00, 0x1E, 0x00, 0x00, 0x00, 0x00, 0x00, 0x00, 0x00],
    [0xD1, 0x55, 0x05, 0x00, 0x00, 0x00, 0x00, 0xCA, 0x94, 0x00, 0x00, 0x00, 0x00, 0x00, 0x00, 0x00],
    [0xD1, 0x55, 0x03, 0x00, 0x00, 0x00, 0x00, 0x00, 0x00, 0x00, 0x00, 0x00, 0x00, 0x00, 0x00, 0x00],
    [0xD1, 0x55, 0x07, 0x00, 0x00, 0x00, 0x00, 0x00, 0x00, 0x00, 0x00, 0x00, 0x00, 0x00, 0x00, 0x00] ]

/-- sendHandshake of main.cpp. If the write characteristic is absent the
function logs and returns without writing or changing state. Otherwise it
encrypts and writes the 6 frames in order (write results are ignored) and
then sets state to MONITORING with stateEnterTime, lastNotificationTime
and lastUpdateTime all set to the current millis(). Returns the updated
monitor and the list of ciphertext blocks written, in order. -/
def sendHandshake (enc : BlockCipher) (AES_KEY : List Nat) (now : Nat)
    (m : BatteryMonitor) : BatteryMonitor × List (List Nat) :=
  if ¬ m.hasWriteChar then (m, [])
  else
    ({ m with state := DeviceState.MONITORING,
              stateEnterTime := now,
              lastNotificationTime := now,
              lastUpdateTime := now },
     (handshakeFrames m.config.type).map (aes_encrypt enc AES_KEY))

/-- Reading of byte b of a uint8_t buffer written from arbitrary Nat
values: the stored byte is the value mod 256. -/
def toInt8 (b : Nat) : Int :=
  if b % 256 < 128 then (b % 256 : Int) else (b % 256 : Int) - 256

/-- Conversion of an int value back into an int8_t field (two's-complement
wrap, as the ESP32 toolchain implements it). -/
def wrap8 (x : Int) : Int := (x + 128) % 256 - 128

/-- The field-extraction part of notifyCallback, applied to the decrypted
16-byte buffer d (a uint8_t array, so each entry is below 256) after the
length and header checks passed. Updates only the reading fields,
lastUpdateTime and lastNotificationTime. -/
def processFrame (now : Nat) (d : List Nat) (m : BatteryMonitor) : BatteryMonitor :=
  { m with
    temperature :=
      if d.getD 3 0 = 1 then wrap8 (-(toInt8 (d.getD 4 0))) else toInt8 (d.getD 4 0),
    status := d.getD 5 0,
    soc := d.getD 6 0,
    voltage := ((Nat.shiftLeft (d.getD 7 0) 8 ||| d.getD 8 0 : Nat) : ℚ) / 100,
    rapidVoltageRise := Nat.shiftLeft (d.getD 9 0) 8 ||| d.getD 10 0,
    rapidVoltageDrop := Nat.shiftLeft (d.getD 11 0) 8 ||| d.getD 12 0,
    lastUpdateTime := now,
    lastNotificationTime := now }

/-- notifyCallback of main.cpp, for the monitor the notification belongs
to. A notification whose length is not 16 is dropped. Otherwise the data
is decrypted into a uint8_t buffer (entries reduced mod 256) and dropped
unless the first two plaintext bytes are 0xD1 0x55; an accepted frame is
parsed by processFrame. -/
def notifyCallback (dec : BlockCipher) (AES_KEY : List Nat) (now : Nat)
    (pData : List Nat) (m : BatteryMonitor) : BatteryMonitor :=
  if pData.length ≠ 16 then m
  else if ((aes_decrypt dec AES_KEY pData).map (fun x => x % 256)).getD 0 0 ≠ 0xD1 ∨
          ((aes_decrypt dec AES_KEY pData).map (fun x => x % 256)).getD 1 0 ≠ 0x55 then m
  else processFrame now ((aes_decrypt dec AES_KEY pData).map (fun x => x % 256)) m

/-- BatteryMonitor::cleanup of main.cpp: disconnect a connected client,
delete it, null both characteristic pointers and set state to
DISCONNECTED. -/
def cleanup (m : BatteryMonitor) : BatteryMonitor :=
  { m with hasClient := false,
           clientConnected := false,
           hasWriteChar := false,
           hasNotifyChar := false,
           state := DeviceState.DISCONNECTED }

/-- The cooldown check of the control loop (main.cpp loop): a monitor in
COOLDOWN whose cooldown interval has elapsed returns to DISCONNECTED with
connectRetries reset to 0; otherwise the monitor is left unchanged. -/
def cooldownCheck (RETRY_COOLDOWN_MS : Nat) (now : Nat) (m : BatteryMonitor) : BatteryMonitor :=
  if m.state = DeviceState.COOLDOWN ∧ usub32 now m.lastRetryTime ≥ RETRY_COOLDOWN_MS
  then { m with state := DeviceState.DISCONNECTED, connectRetries := 0 }
  else m

/-- The notification-timeout check of the control loop (main.cpp loop):
for a monitor in MONITORING, once more than 2000 ms have passed since
entering the state, a gap since the last notification exceeding
NOTIFICATION_TIMEOUT_MS forces cleanup; in every other case the monitor
is left unchanged. -/
def livenessCheck (NOTIFICATION_TIMEOUT_MS : Nat) (now : Nat) (m : BatteryMonitor) : BatteryMonitor :=
  if m.state = DeviceState.MONITORING then
    if usub32 now m.stateEnterTime > 2000 then
      if usub32 now m.lastNotificationTime > NOTIFICATION_TIMEOUT_MS then cleanup m
      else m
    else m
  else m

/-- Outcomes of the BLE transport calls made during one connection
attempt, supplied by the external NimBLE stack. -/
structure ConnectOutcome where
  connected : Bool
  serviceFound : Bool
  writeCharFound : Bool
  notifyCharFound : Bool
  canNotify : Bool
  subscribeOk : Bool
deriving DecidableEq, Repr

/-- The connection attempt the control loop performs on a monitor observed
in SCANNING (main.cpp loop, the STATE_SCANNING branch): set CONNECTING,
create a client, connect to the cached address; on connect failure delete
the client, increment connectRetries and either enter COOLDOWN with
lastRetryTime set to now (retries reached MAX_CONNECT_RETRIES) or revert
to DISCONNECTED; on connect success resolve the service and the two
characteristics and subscribe when the notify characteristic supports
notification, each failure there disconnecting and reverting to
DISCONNECTED; on full success reset connectRetries, enter HANDSHAKE and
run sendHandshake. -/
def connectAttempt (MAX_CONNECT_RETRIES : Nat) (enc : BlockCipher) (AES_KEY : List Nat)
    (now : Nat) (oc : ConnectOutcome) (m : BatteryMonitor) : BatteryMonitor :=
  let m1 := { m with state := DeviceState.CONNECTING, hasClient := true,
                     clientConnected := false }
  if ¬ oc.connected then
    let m2 := { m1 with hasClient := false, connectRetries := m1.connectRetries + 1 }
    if m2.connectRetries ≥ MAX_CONNECT_RETRIES then
      { m2 with state := DeviceState.COOLDOWN, lastRetryTime := now }
    else
      { m2 with state := DeviceState.DISCONNECTED }
  else
    let m2 := { m1 with clientConnected := true }
    if ¬ oc.serviceFound then
      { m2 with clientConnected := false, state := DeviceState.DISCONNECTED }
    else
      let m3 := { m2 with hasWriteChar := oc.writeCharFound,
                          hasNotifyChar := oc.notifyCharFound }
      if ¬ (oc.writeCharFound ∧ oc.notifyCharFound) then
        { m3 with clientConnected := false, state := DeviceState.DISCONNECTED }
      else if oc.canNotify ∧ ¬ oc.subscribeOk then
        { m3 with clientConnected := false, state := DeviceState.DISCONNECTED }
      else
        (sendHandshake enc AES_KEY now
          { m3 with connectRetries := 0, state := DeviceState.HANDSHAKE }).1

/-- Arduino String::toUpperCase as onResult applies it to the advertised
MAC and to the configured serial, character by character. -/
def upperString (s : String) : String := String.mk (s.data.map Char.toUpper)

/-- The per-monitor body of ScanCallbacks::onResult for an advertisement
whose name matched, given the normalized advertised MAC (separators
stripped, uppercased). Returns some claimed monitor when this monitor
claims the match (state set to SCANNING, discovered address cached), and
none when the loop continues past it. -/
def tryClaim (mac : String) (addr : String) (m : BatteryMonitor) : Option BatteryMonitor :=
  let configSerial := upperString m.config.serial
  if mac ≠ configSerial then none
  else if ¬ m.config.enabled then none
  else if m.state = DeviceState.COOLDOWN then none
  else if m.state = DeviceState.CONNECTING ∨ m.state = DeviceState.MONITORING ∨
          m.state = DeviceState.HANDSHAKE then none
  else if m.hasClient ∧ m.clientConnected then none
  else if mac = configSerial then
    some { m with state := DeviceState.SCANNING, deviceAddress := addr }
  else none

/-- A concrete configuration entry used to instantiate theorems on
concrete inputs. -/
def sampleConfig : DeviceConfig :=
  { serial := "50547B815AFB", name := "Main Battery", mqttName := "main_battery",
    type := 1, enabled := true, key := List.replicate 16 0 }

/-- A concrete monitor in its initial (constructor) state, used to
instantiate theorems on concrete inputs. -/
def sampleMonitor : BatteryMonitor :=
  { configIndex := 0, config := sampleConfig, hasClient := false,
    clientConnected := false, hasWriteChar := false, hasNotifyChar := false,
    state := DeviceState.DISCONNECTED, connectRetries := 0, lastRetryTime := 0,
    lastNotificationTime := 0, stateEnterTime := 0, deviceAddress := "",
    voltage := 0, soc := 0, temperature := 0, status := 0,
    rapidVoltageRise := 0, rapidVoltageDrop := 0, lastUpdateTime := 0 }

theorem xorBytes_zero_right (l : List Nat) :
    xorBytes l (List.replicate l.length 0) = l := by
  induction l with
  | nil => rfl
  | cons a as ih =>
      simp only [List.length_cons, List.replicate_succ, xorBytes,
        List.zipWith_cons_cons, Nat.xor_zero]
      exact congrArg (List.cons a) ih

/-- Claim C8: decrypting the encryption of a 16-byte plaintext block under
the same key and the all-zero IV yields the plaintext, given the cipher
contract that the core decryption inverts the core encryption on 16-byte
blocks. -/
theorem aes_roundtrip (enc dec : BlockCipher) (K p : List Nat)
    (hlen : p.length = 16)
    (hinv : ∀ b : List Nat, b.length = 16 → dec K (enc K b) = b) :
    aes_decrypt dec K (aes_encrypt enc K p) = p := by
  have hIV : xorBytes p AES_IV = p := by
    have h := xorBytes_zero_right p
    rw [hlen] at h
    exact h
  unfold aes_encrypt aes_decrypt
  rw [hIV, hinv p hlen, hIV]

/-- Witness for aes_roundtrip at a concrete block, key and core cipher. -/
theorem aes_roundtrip_witness :
    aes_decrypt (fun _ b => b.reverse) (List.replicate 16 7)
      (aes_encrypt (fun _ b => b.reverse) (List.replicate 16 7)
        [0, 1, 2, 3, 4, 5, 6, 7, 8, 9, 10, 11, 12, 13, 14, 15]) =
      [0, 1, 2, 3, 4, 5, 6, 7, 8, 9, 10, 11, 12, 13, 14, 15] :=
  aes_roundtrip _ _ _ _ rfl (fun b _ => List.reverse_reverse b)

/-- Claim C7: a notification whose length is not 16, or whose decrypted
first two bytes are not the header tag 0xD1 0x55, leaves the monitor
completely unchanged. -/
theorem reject_malformed (dec : BlockCipher) (K : List Nat) (now : Nat)
    (pData : List Nat) (m : BatteryMonitor)
    (h : pData.length ≠ 16 ∨
         ((aes_decrypt dec K pData).map (fun x => x % 256)).getD 0 0 ≠ 0xD1 ∨
         ((aes_decrypt dec K pData).map (fun x => x % 256)).getD 1 0 ≠ 0x55) :
    notifyCallback dec K now pData m = m := by
  unfold notifyCallback
  by_cases hl : pData.length = 16
  · have hh : ((aes_decrypt dec K pData).map (fun x => x % 256)).getD 0 0 ≠ 0xD1 ∨
        ((aes_decrypt dec K pData).map (fun x => x % 256)).getD 1 0 ≠ 0x55 := by
      rcases h with h | h | h
      · exact absurd hl h
      · exact Or.inl h
      · exact Or.inr h
    rw [if_neg (not_not_intro hl), if_pos hh]
  · rw [if_pos hl]

/-- Witness for reject_malformed at a concrete short notification. -/
theorem reject_malformed_witness :
    notifyCallback (fun _ b => b) [] 5 [1, 2, 3] sampleMonitor = sampleMonitor :=
  reject_malformed _ _ _ _ _ (Or.inl (by decide))

/-- Claim C10: whatever the monitor's current state, the decode path only
ever writes the reading fields and the two timestamps; identity, state,
connectRetries, retry timestamp, state-entry timestamp, cached address
and the transport handles are untouched, and on a well-formed frame the
two timestamps are set to now. -/
theorem decode_frame_effect (dec : BlockCipher) (K : List Nat) (now : Nat)
    (pData : List Nat) (m : BatteryMonitor) :
    (notifyCallback dec K now pData m).state = m.state ∧
    (notifyCallback dec K now pData m).connectRetries = m.connectRetries ∧
    (notifyCallback dec K now pData m).hasClient = m.hasClient ∧
    (notifyCallback dec K now pData m).clientConnected = m.clientConnected ∧
    (notifyCallback dec K now pData m).hasWriteChar = m.hasWriteChar ∧
    (notifyCallback dec K now pData m).hasNotifyChar = m.hasNotifyChar ∧
    (notifyCallback dec K now pData m).config = m.config ∧
    (notifyCallback dec K now pData m).configIndex = m.configIndex ∧
    (notifyCallback dec K now pData m).lastRetryTime = m.lastRetryTime ∧
    (notifyCallback dec K now pData m).stateEnterTime = m.stateEnterTime ∧
    (notifyCallback dec K now pData m).deviceAddress = m.deviceAddress ∧
    (pData.length = 16 →
      ((aes_decrypt dec K pData).map (fun x => x % 256)).getD 0 0 = 0xD1 →
      ((aes_decrypt dec K pData).map (fun x => x % 256)).getD 1 0 = 0x55 →
      (notifyCallback dec K now pData m).lastNotificationTime = now ∧
      (notifyCallback dec K now pData m).lastUpdateTime = now) := by
  by_cases hl : pData.length = 16
  · by_cases hh : ((aes_decrypt dec K pData).map (fun x => x % 256)).getD 0 0 ≠ 0xD1 ∨
        ((aes_decrypt dec K pData).map (fun x => x % 256)).getD 1 0 ≠ 0x55
    · have he : notifyCallback dec K now pData m = m := by
        unfold notifyCallback
        rw [if_neg (not_not_intro hl), if_pos hh]
      rw [he]
      refine ⟨rfl, rfl, rfl, rfl, rfl, rfl, rfl, rfl, rfl, rfl, rfl, ?_⟩
      intro _ h1 h2
      rcases hh with hh | hh
      · exact absurd h1 hh
      · exact absurd h2 hh
    · have he : notifyCallback dec K now pData m =
          processFrame now ((aes_decrypt dec K pData).map (fun x => x % 256)) m := by
        unfold notifyCallback
        rw [if_neg (not_not_intro hl), if_neg hh]
      rw [he]
      exact ⟨rfl, rfl, rfl, rfl, rfl, rfl, rfl, rfl, rfl, rfl, rfl,
        fun _ _ _ => ⟨rfl, rfl⟩⟩
  · have he : notifyCallback dec K now pData m = m := by
      unfold notifyCallback
      rw [if_pos hl]
    rw [he]
    refine ⟨rfl, rfl, rfl, rfl, rfl, rfl, rfl, rfl, rfl, rfl, rfl, ?_⟩
    intro h0
    exact absurd h0 hl

/-- Witness for decode_frame_effect at a concrete accepted frame. -/
theorem decode_frame_effect_witness :
    (notifyCallback (fun _ b => b) [] 42
      [0xD1, 0x55, 0, 0, 23, 2, 59, 4, 0xB0, 0, 0, 0, 2, 0, 0, 0]
      sampleMonitor).state = sampleMonitor.state ∧
    (notifyCallback (fun _ b => b) [] 42
      [0xD1, 0x55, 0, 0, 23, 2, 59, 4, 0xB0, 0, 0, 0, 2, 0, 0, 0]
      sampleMonitor).lastNotificationTime = 42 := by
  have h := decode_frame_effect (fun _ b => b) [] 42
    [0xD1, 0x55, 0, 0, 23, 2, 59, 4, 0xB0, 0, 0, 0, 2, 0, 0, 0] sampleMonitor
  exact ⟨h.1, (h.2.2.2.2.2.2.2.2.2.2.2 (by decide) (by decide) (by decide)).1⟩

/-- Claim C2: a monitor in COOLDOWN returns to DISCONNECTED with
connectRetries reset to 0 exactly when the elapsed time since
lastRetryTime reaches RETRY_COOLDOWN_MS, and stays in COOLDOWN unchanged
while it has not. -/
theorem cooldown_expiry_exact (R now : Nat) (m : BatteryMonitor)
    (hs : m.state = DeviceState.COOLDOWN) :
    (usub32 now m.lastRetryTime ≥ R →
      cooldownCheck R now m =
        { m with state := DeviceState.DISCONNECTED, connectRetries := 0 }) ∧
    (usub32 now m.lastRetryTime < R →
      cooldownCheck R now m = m ∧
      (cooldownCheck R now m).state = DeviceState.COOLDOWN) := by
  constructor
  · intro he
    unfold cooldownCheck
    rw [if_pos ⟨hs, he⟩]
  · intro he
    have hne : ¬ (m.state = DeviceState.COOLDOWN ∧ usub32 now m.lastRetryTime ≥ R) := by
      rintro ⟨-, hge⟩
      exact absurd hge (Nat.not_le.mpr he)
    have heq : cooldownCheck R now m = m := by
      unfold cooldownCheck
      rw [if_neg hne]
    exact ⟨heq, by rw [heq, hs]⟩

/-- Witness for cooldown_expiry_exact: the boundary instant where the
cooldown has just elapsed, and one tick earlier. -/
theorem cooldown_expiry_exact_witness :
    cooldownCheck 30000 31000
        { sampleMonitor with state := DeviceState.COOLDOWN, lastRetryTime := 1000 } =
      { sampleMonitor with state := DeviceState.DISCONNECTED, connectRetries := 0,
                           lastRetryTime := 1000 } ∧
    cooldownCheck 30000 30999
        { sampleMonitor with state := DeviceState.COOLDOWN, lastRetryTime := 1000 } =
      { sampleMonitor with state := DeviceState.COOLDOWN, lastRetryTime := 1000 } := by
  constructor
  · exact (cooldown_expiry_exact 30000 31000
      { sampleMonitor with state := DeviceState.COOLDOWN, lastRetryTime := 1000 }
      rfl).1 (by decide)
  · exact ((cooldown_expiry_exact 30000 30999
      { sampleMonitor with state := DeviceState.COOLDOWN, lastRetryTime := 1000 }
      rfl).2 (by decide)).1

theorem livenessCheck_not_monitoring (T t : Nat) (m : BatteryMonitor)
    (h : m.state ≠ DeviceState.MONITORING) :
    livenessCheck T t m = m := by
  unfold livenessCheck
  rw [if_neg h]

/-- Claim C4: while a monitor is in MONITORING the forced cleanup never
fires within the 2 s grace period after entering the state; after the
grace period a notification gap exceeding the timeout forces exactly one
cleanup to DISCONNECTED with the transport handles released, and any
number of further stale ticks leave the cleaned-up monitor unchanged. -/
theorem monitoring_timeout_once (T now : Nat) (m : BatteryMonitor)
    (hs : m.state = DeviceState.MONITORING) :
    (usub32 now m.stateEnterTime ≤ 2000 → livenessCheck T now m = m) ∧
    (usub32 now m.stateEnterTime > 2000 →
      usub32 now m.lastNotificationTime > T →
      livenessCheck T now m = cleanup m ∧
      (livenessCheck T now m).state = DeviceState.DISCONNECTED ∧
      (livenessCheck T now m).hasClient = false ∧
      (livenessCheck T now m).hasWriteChar = false ∧
      (livenessCheck T now m).hasNotifyChar = false ∧
      ∀ ts : List Nat,
        ts.foldl (fun mm t => livenessCheck T t mm) (livenessCheck T now m) =
          livenessCheck T now m) := by
  constructor
  · intro hg
    unfold livenessCheck
    rw [if_pos hs, if_neg (Nat.not_lt.mpr hg)]
  · intro hg ht
    have heq : livenessCheck T now m = cleanup m := by
      unfold livenessCheck
      rw [if_pos hs, if_pos hg, if_pos ht]
    refine ⟨heq, by rw [heq]; rfl, by rw [heq]; rfl, by rw [heq]; rfl,
      by rw [heq]; rfl, ?_⟩
    intro ts
    rw [heq]
    induction ts with
    | nil => rfl
    | cons t ts ih =>
        have hstep : livenessCheck T t (cleanup m) = cleanup m :=
          livenessCheck_not_monitoring T t (cleanup m) (by intro hcon; cases hcon)
        simpa [hstep] using ih

/-- Witness for monitoring_timeout_once: a monitor stale past the grace
period and the timeout is cleaned up once and further ticks change
nothing. -/
theorem monitoring_timeout_once_witness :
    livenessCheck 60000 70000
        { sampleMonitor with state := DeviceState.MONITORING, stateEnterTime := 100,
                             lastNotificationTime := 200, hasClient := true,
                             clientConnected := true, hasWriteChar := true,
                             hasNotifyChar := true } =
      cleanup { sampleMonitor with state := DeviceState.MONITORING, stateEnterTime := 100,
                                   lastNotificationTime := 200, hasClient := true,
                                   clientConnected := true, hasWriteChar := true,
                                   hasNotifyChar := true } := by
  exact ((monitoring_timeout_once 60000 70000
    { sampleMonitor with state := DeviceState.MONITORING, stateEnterTime := 100,
                         lastNotificationTime := 200, hasClient := true,
                         clientConnected := true, hasWriteChar := true,
                         hasNotifyChar := true } rfl).2 (by decide) (by decide)).1

/-- Claim C5: whenever the write characteristic is present, the handshake
writes exactly the six encrypted frames in order (session-init, battery
type embedding the configured code, the two fixed-constant configuration
frames, pre-finalization, finalization) and then enters MONITORING with
stateEnterTime and lastNotificationTime set to the current time. -/
theorem handshake_sequence (enc : BlockCipher) (K : List Nat) (now : Nat)
    (m : BatteryMonitor) (h : m.hasWriteChar = true) :
    (sendHandshake enc K now m).2 =
      [aes_encrypt enc K [0xD1, 0x55, 0x01, 0, 0, 0, 0, 0, 0, 0, 0, 0, 0, 0, 0, 0],
       aes_encrypt enc K [0xD1, 0x55, 0x08, m.config.type, 0, 0, 0, 0, 0, 0, 0, 0, 0, 0, 0, 0],
       aes_encrypt enc K [0xD1, 0x55, 0x05, 0, 0, 0, 0, 0, 0x1E, 0, 0, 0, 0, 0, 0, 0],
       aes_encrypt enc K [0xD1, 0x55, 0x05, 0, 0, 0, 0, 0xCA, 0x94, 0, 0, 0, 0, 0, 0, 0],
       aes_encrypt enc K [0xD1, 0x55, 0x03, 0, 0, 0, 0, 0, 0, 0, 0, 0, 0, 0, 0, 0],
       aes_encrypt enc K [0xD1, 0x55, 0x07, 0, 0, 0, 0, 0, 0, 0, 0, 0, 0, 0, 0, 0]] ∧
    (sendHandshake enc K now m).1.state = DeviceState.MONITORING ∧
    (sendHandshake enc K now m).1.stateEnterTime = now ∧
    (sendHandshake enc K now m).1.lastNotificationTime = now := by
  have he : sendHandshake enc K now m =
      ({ m with state := DeviceState.MONITORING, stateEnterTime := now,
                lastNotificationTime := now, lastUpdateTime := now },
       (handshakeFrames m.config.type).map (aes_encrypt enc K)) := by
    unfold sendHandshake
    rw [if_neg (by rw [h]; exact not_not_intro rfl)]
  rw [he]
  exact ⟨rfl, rfl, rfl, rfl⟩

/-- Witness for handshake_sequence at a concrete monitor and cipher. -/
theorem handshake_sequence_witness :
    ({ sampleMonitor with hasWriteChar := true } : BatteryMonitor).hasWriteChar = true ∧
    (sendHandshake (fun _ b => b) [] 7
        { sampleMonitor with hasWriteChar := true }).1.state = DeviceState.MONITORING := by
  refine ⟨rfl, ?_⟩
  exact (handshake_sequence (fun _ b => b) [] 7
    { sampleMonitor with hasWriteChar := true } rfl).2.1

/-- Counterexample to claim C1: with the transport connected, the service
and both characteristics resolved but the notify characteristic not
supporting notification, the attempt is not aborted and connectRetries is
not incremented — the monitor proceeds all the way to MONITORING; and a
missing service aborts without incrementing connectRetries. -/
theorem connect_attempt_cex :
    (connectAttempt 3 (fun _ b => b) [] 100
        { connected := true, serviceFound := true, writeCharFound := true,
          notifyCharFound := true, canNotify := false, subscribeOk := false }
        { sampleMonitor with state := DeviceState.SCANNING }).state =
      DeviceState.MONITORING ∧
    (connectAttempt 3 (fun _ b => b) [] 100
        { connected := true, serviceFound := true, writeCharFound := true,
          notifyCharFound := true, canNotify := false, subscribeOk := false }
        { sampleMonitor with state := DeviceState.SCANNING }).connectRetries = 0 ∧
    (connectAttempt 3 (fun _ b => b) [] 100
        { connected := true, serviceFound := false, writeCharFound := false,
          notifyCharFound := false, canNotify := false, subscribeOk := false }
        { sampleMonitor with state := DeviceState.SCANNING }).state =
      DeviceState.DISCONNECTED ∧
    (connectAttempt 3 (fun _ b => b) [] 100
        { connected := true, serviceFound := false, writeCharFound := false,
          notifyCharFound := false, canNotify := false, subscribeOk := false }
        { sampleMonitor with state := DeviceState.SCANNING }).connectRetries = 0 := by
  refine ⟨rfl, rfl, rfl, rfl⟩

/-- Claim C1 (amended): only the transport connect failure increments
connectRetries, reverting to DISCONNECTED while the incremented counter
is below MAX_CONNECT_RETRIES and entering COOLDOWN with lastRetryTime set
to now on reaching it; a missing service, a missing characteristic, or a
failing subscription on a notify-capable characteristic abort the attempt
to DISCONNECTED without touching connectRetries; a notify characteristic
that does not support notification does not abort the attempt, which
proceeds to the handshake and MONITORING with connectRetries reset. -/
theorem connect_attempt_retry_policy (MAX : Nat) (enc : BlockCipher) (K : List Nat)
    (now : Nat) (oc : ConnectOutcome) (m : BatteryMonitor) :
    (oc.connected = false →
      (connectAttempt MAX enc K now oc m).connectRetries = m.connectRetries + 1 ∧
      (m.connectRetries + 1 ≥ MAX →
        (connectAttempt MAX enc K now oc m).state = DeviceState.COOLDOWN ∧
        (connectAttempt MAX enc K now oc m).lastRetryTime = now) ∧
      (m.connectRetries + 1 < MAX →
        (connectAttempt MAX enc K now oc m).state = DeviceState.DISCONNECTED)) ∧
    (oc.connected = true → oc.serviceFound = false →
      (connectAttempt MAX enc K now oc m).state = DeviceState.DISCONNECTED ∧
      (connectAttempt MAX enc K now oc m).connectRetries = m.connectRetries) ∧
    (oc.connected = true → oc.serviceFound = true →
      (oc.writeCharFound = false ∨ oc.notifyCharFound = false) →
      (connectAttempt MAX enc K now oc m).state = DeviceState.DISCONNECTED ∧
      (connectAttempt MAX enc K now oc m).connectRetries = m.connectRetries) ∧
    (oc.connected = true → oc.serviceFound = true → oc.writeCharFound = true →
      oc.notifyCharFound = true → oc.canNotify = true → oc.subscribeOk = false →
      (connectAttempt MAX enc K now oc m).state = DeviceState.DISCONNECTED ∧
      (connectAttempt MAX enc K now oc m).connectRetries = m.connectRetries) ∧
    (oc.connected = true → oc.serviceFound = true → oc.writeCharFound = true →
      oc.notifyCharFound = true → (oc.canNotify = false ∨ oc.subscribeOk = true) →
      (connectAttempt MAX enc K now oc m).state = DeviceState.MONITORING ∧
      (connectAttempt MAX enc K now oc m).connectRetries = 0 ∧
      (connectAttempt MAX enc K now oc m).stateEnterTime = now ∧
      (connectAttempt MAX enc K now oc m).lastNotificationTime = now) := by
  refine ⟨?_, ?_, ?_, ?_, ?_⟩
  · intro hc
    simp only [connectAttempt, hc]
    split_ifs with h1 h2 <;> simp_all
  · intro hc hs
    simp [connectAttempt, hc, hs]
  · intro hc hs hw
    rcases hw with hw | hw <;> simp [connectAttempt, hc, hs, hw]
  · intro hc hs hw hn hcn hsub
    simp [connectAttempt, hc, hs, hw, hn, hcn, hsub]
  · intro hc hs hw hn hok
    rcases hok with hok | hok <;>
      simp [connectAttempt, sendHandshake, hc, hs, hw, hn, hok]

/-- Witness for connect_attempt_retry_policy: a third consecutive connect
failure enters COOLDOWN and records lastRetryTime. -/
theorem connect_attempt_retry_policy_witness :
    (connectAttempt 3 (fun _ b => b) [] 500
        { connected := false, serviceFound := false, writeCharFound := false,
          notifyCharFound := false, canNotify := false, subscribeOk := false }
        { sampleMonitor with state := DeviceState.SCANNING, connectRetries := 2 }).state =
      DeviceState.COOLDOWN ∧
    (connectAttempt 3 (fun _ b => b) [] 500
        { connected := false, serviceFound := false, writeCharFound := false,
          notifyCharFound := false, canNotify := false, subscribeOk := false }
        { sampleMonitor with state := DeviceState.SCANNING, connectRetries := 2 }).lastRetryTime =
      500 := by
  exact ((connect_attempt_retry_policy 3 (fun _ b => b) [] 500
    { connected := false, serviceFound := false, writeCharFound := false,
      notifyCharFound := false, canNotify := false, subscribeOk := false }
    { sampleMonitor with state := DeviceState.SCANNING, connectRetries := 2 }).1
    rfl).2.1 (by decide)

/-- Counterexample to claim C3: a monitor whose state is SCANNING (not
DISCONNECTED) with no live connected transport handle is still claimed by
the matcher, which re-caches the discovered address. -/
theorem matcher_scanning_cex :
    ({ sampleMonitor with state := DeviceState.SCANNING } : BatteryMonitor).state ≠
      DeviceState.DISCONNECTED ∧
    tryClaim "50547B815AFB" "50:54:7b:81:5a:fb"
        { sampleMonitor with state := DeviceState.SCANNING } =
      some { sampleMonitor with state := DeviceState.SCANNING,
                                deviceAddress := "50:54:7b:81:5a:fb" } := by
  refine ⟨by decide, ?_⟩
  rfl

/-- Claim C3 (amended): the matcher claims a monitor for a matching
advertisement exactly when its config is enabled, its state is
DISCONNECTED or SCANNING (never COOLDOWN, CONNECTING, HANDSHAKE or
MONITORING), and it has no live connected transport handle; the claimed
monitor moves to SCANNING with the discovered address cached. -/
theorem matcher_eligibility (mac addr : String) (m : BatteryMonitor) :
    (∀ m' : BatteryMonitor, tryClaim mac addr m = some m' →
      mac = upperString m.config.serial ∧ m.config.enabled = true ∧
      (m.state = DeviceState.DISCONNECTED ∨ m.state = DeviceState.SCANNING) ∧
      (m.hasClient = false ∨ m.clientConnected = false) ∧
      m' = { m with state := DeviceState.SCANNING, deviceAddress := addr }) ∧
    (mac = upperString m.config.serial → m.config.enabled = true →
      (m.state = DeviceState.DISCONNECTED ∨ m.state = DeviceState.SCANNING) →
      (m.hasClient = false ∨ m.clientConnected = false) →
      tryClaim mac addr m =
        some { m with state := DeviceState.SCANNING, deviceAddress := addr }) := by
  constructor
  · intro m' h
    simp only [tryClaim] at h
    split_ifs at h with h1 h2 h3 h4 h5 h6
    all_goals cases h
    have hmac : mac = upperString m.config.serial := h6
    have hen : m.config.enabled = true := h2
    have hstate : m.state = DeviceState.DISCONNECTED ∨ m.state = DeviceState.SCANNING := by
      cases hs : m.state <;> simp_all
    have hcl : m.hasClient = false ∨ m.clientConnected = false := by
      cases hc : m.hasClient
      · exact Or.inl rfl
      · cases hc2 : m.clientConnected
        · exact Or.inr rfl
        · exact absurd ⟨hc, hc2⟩ h5
    exact ⟨hmac, hen, hstate, hcl, rfl⟩
  · intro h1 h2 h3 h4
    have hnb : ¬ (m.state = DeviceState.CONNECTING ∨ m.state = DeviceState.MONITORING ∨
        m.state = DeviceState.HANDSHAKE) := by
      rcases h3 with h3 | h3 <;> rw [h3] <;> simp
    have hcool : m.state ≠ DeviceState.COOLDOWN := by
      rcases h3 with h3 | h3 <;> rw [h3] <;> simp
    have hlive : ¬ (m.hasClient = true ∧ m.clientConnected = true) := by
      rcases h4 with h4 | h4 <;> simp [h4]
    simp only [tryClaim]
    rw [if_neg (not_not_intro h1), if_neg (by simp [h2]), if_neg hcool,
      if_neg hnb, if_neg hlive, if_pos h1]

/-- Witness for matcher_eligibility: a DISCONNECTED enabled monitor with
no client is claimed. -/
theorem matcher_eligibility_witness :
    tryClaim "50547B815AFB" "50:54:7b:81:5a:fb" sampleMonitor =
      some { sampleMonitor with state := DeviceState.SCANNING,
                                deviceAddress := "50:54:7b:81:5a:fb" } :=
  (matcher_eligibility "50547B815AFB" "50:54:7b:81:5a:fb" sampleMonitor).2
    (by decide) rfl (Or.inl rfl) (Or.inl rfl)

/-- A second concrete configuration whose per-device key differs from
sampleConfig's, everything else equal. -/
def otherKeyConfig : DeviceConfig :=
  { serial := "50547B815AFB", name := "Main Battery", mqttName := "main_battery",
    type := 1, enabled := true, key := List.replicate 16 0x22 }

/-- Counterexample to claim C6: two monitors configured with different
per-device cipher keys produce identical handshake ciphertexts, even
under a core cipher that genuinely depends on its key argument — the
encryption path never reads the monitor's configured key. -/
theorem per_device_key_cex :
    ({ sampleConfig with key := List.replicate 16 0x11 } : DeviceConfig).key ≠
      otherKeyConfig.key ∧
    (sendHandshake (fun k b => xorBytes k b) (List.replicate 16 0x5A) 7
        { sampleMonitor with config := { sampleConfig with key := List.replicate 16 0x11 },
                             hasWriteChar := true }).2 =
    (sendHandshake (fun k b => xorBytes k b) (List.replicate 16 0x5A) 7
        { sampleMonitor with config := otherKeyConfig, hasWriteChar := true }).2 := by
  exact ⟨by decide, rfl⟩

/-- Claim C6 (amended): every handshake frame is encrypted (and every
notification decrypted) under the single global key AES_KEY with the
all-zero IV; the ciphertext written for a monitor is independent of the
monitor's configured per-device key field, so two monitors of the same
battery type but different configured keys produce identical
ciphertexts. -/
theorem global_key_encryption (enc : BlockCipher) (K : List Nat) (now : Nat)
    (m1 m2 : BatteryMonitor) (htype : m1.config.type = m2.config.type)
    (h1 : m1.hasWriteChar = true) (h2 : m2.hasWriteChar = true) :
    (sendHandshake enc K now m1).2 = (sendHandshake enc K now m2).2 ∧
    (sendHandshake enc K now m1).2 =
      (handshakeFrames m1.config.type).map (fun f => enc K (xorBytes f AES_IV)) := by
  have e1 : (sendHandshake enc K now m1).2 =
      (handshakeFrames m1.config.type).map (aes_encrypt enc K) := by
    unfold sendHandshake
    rw [if_neg (by rw [h1]; exact not_not_intro rfl)]
  have e2 : (sendHandshake enc K now m2).2 =
      (handshakeFrames m2.config.type).map (aes_encrypt enc K) := by
    unfold sendHandshake
    rw [if_neg (by rw [h2]; exact not_not_intro rfl)]
  constructor
  · rw [e1, e2, htype]
  · rw [e1]
    rfl

/-- Witness for global_key_encryption at two concrete monitors with
different keys. -/
theorem global_key_encryption_witness :
    (sendHandshake (fun k b => xorBytes k b) (List.replicate 16 0x5A) 9
        { sampleMonitor with hasWriteChar := true }).2 =
    (sendHandshake (fun k b => xorBytes k b) (List.replicate 16 0x5A) 9
        { sampleMonitor with config := otherKeyConfig, hasWriteChar := true }).2 :=
  (global_key_encryption (fun k b => xorBytes k b) (List.replicate 16 0x5A) 9
    { sampleMonitor with hasWriteChar := true }
    { sampleMonitor with config := otherKeyConfig, hasWriteChar := true }
    rfl rfl rfl).1

/-- Counterexample to claim C9: an accepted frame with sign byte 0 and
magnitude byte 200 decodes to temperature -56, not 200 — the magnitude
byte passes through a signed 8-bit cast, so values of 128..255 wrap. -/
theorem temperature_wrap_cex :
    (notifyCallback (fun _ b => b) [] 0
        [0xD1, 0x55, 0, 0, 200, 0, 0, 0, 0, 0, 0, 0, 0, 0, 0, 0]
        sampleMonitor).temperature = -56 ∧ ((-56 : Int) ≠ (200 : Int)) := by
  exact ⟨rfl, by decide⟩

/-- Claim C9 (amended): for magnitude bytes 0..127 the decoded temperature
is the magnitude, negated exactly when the sign byte is 1 (in particular
sign 1, magnitude 23 gives -23 and sign 0, magnitude 23 gives 23); a
magnitude byte of 128..255 passes through the signed 8-bit cast, so with
sign 0 it decodes to magnitude - 256, with sign 1 and magnitude above 128
to 256 - magnitude, and sign 1 with magnitude 128 gives -128. -/
theorem temperature_decode (now : Nat) (d : List Nat) (m : BatteryMonitor)
    (mag : Nat) (hmag : d.getD 4 0 = mag) :
    (mag < 128 → d.getD 3 0 = 1 →
      (processFrame now d m).temperature = -(mag : Int)) ∧
    (mag < 128 → d.getD 3 0 ≠ 1 →
      (processFrame now d m).temperature = (mag : Int)) ∧
    (128 ≤ mag → mag < 256 → d.getD 3 0 ≠ 1 →
      (processFrame now d m).temperature = (mag : Int) - 256) ∧
    (128 < mag → mag < 256 → d.getD 3 0 = 1 →
      (processFrame now d m).temperature = 256 - (mag : Int)) ∧
    (mag = 128 → d.getD 3 0 = 1 →
      (processFrame now d m).temperature = -128) := by
  have hproj : (processFrame now d m).temperature =
      if d.getD 3 0 = 1 then wrap8 (-(toInt8 (d.getD 4 0))) else toInt8 (d.getD 4 0) := rfl
  rw [hproj, hmag]
  refine ⟨?_, ?_, ?_, ?_, ?_⟩
  · intro hlt hsig
    rw [if_pos hsig]
    unfold wrap8 toInt8
    have hm : mag % 256 = mag := Nat.mod_eq_of_lt (by omega)
    rw [hm, if_pos hlt]
    omega
  · intro hlt hsig
    rw [if_neg hsig]
    unfold toInt8
    have hm : mag % 256 = mag := Nat.mod_eq_of_lt (by omega)
    rw [hm, if_pos hlt]
    omega
  · intro hge hlt hsig
    rw [if_neg hsig]
    unfold toInt8
    have hm : mag % 256 = mag := Nat.mod_eq_of_lt hlt
    rw [hm, if_neg (by omega)]
    omega
  · intro hgt hlt hsig
    rw [if_pos hsig]
    unfold wrap8 toInt8
    have hm : mag % 256 = mag := Nat.mod_eq_of_lt hlt
    rw [hm, if_neg (by omega)]
    have : ((mag : Int) - 256) = (mag : Int) - 256 := rfl
    omega
  · intro heq hsig
    subst heq
    rw [if_pos hsig]
    unfold wrap8 toInt8
    norm_num

/-- Witness for temperature_decode: sign 1, magnitude 23 decodes to -23
and sign 0, magnitude 23 decodes to 23. -/
theorem temperature_decode_witness :
    (processFrame 0 [0xD1, 0x55, 0, 1, 23, 0, 0, 0, 0, 0, 0, 0, 0, 0, 0, 0]
        sampleMonitor).temperature = -23 ∧
    (processFrame 0 [0xD1, 0x55, 0, 0, 23, 0, 0, 0, 0, 0, 0, 0, 0, 0, 0, 0]
        sampleMonitor).temperature = 23 := by
  constructor
  · exact (temperature_decode 0 [0xD1, 0x55, 0, 1, 23, 0, 0, 0, 0, 0, 0, 0, 0, 0, 0, 0]
      sampleMonitor 23 rfl).1 (by decide) rfl
  · exact (temperature_decode 0 [0xD1, 0x55, 0, 0, 23, 0, 0, 0, 0, 0, 0, 0, 0, 0, 0, 0]
      sampleMonitor 23 rfl).2.1 (by decide) (by decide)

end BatteryGuard
